import Mathlib

/-
Verification of the charon keyboard daemon and client against its
specification. The definitions below are a shallow embedding of the Rust
sources under src/crates: pure functions become Lean functions, stateful
methods become explicit state-passing functions, and side effects (logging,
channel sends, terminal operations) are returned as explicit effect lists.
Parts of the repository that are referenced but whose sources are not
included (the DomainEvent and Event declarations, the EventBroker, the
CharonConfig loader, the serde wire format) are modelled from the
specification; their doc comments say so explicitly.
-/

/-- Runtime mode shared across actors and the client. Referenced from the
sources as charon lib Mode; the two variants are fixed by the spec
(PassThrough, InApp) and by AppManager.mode_screen. -/
inductive Mode where
  | PassThrough
  | InApp
deriving DecidableEq, Repr

/-- Modelled from the spec: the structured stats snapshot carried by the
current-stats event. Its fields are not visible in the included sources;
a single counter stands for the snapshot. -/
structure SessionStats where
  keys : Nat
deriving DecidableEq, Repr

/-- Modelled from the spec: the closed DomainEvent variant set of section 3
(key-press, key-release, HID-report, send-text, send-file, text-sent,
current-stats, mode-change, exit, sleep, wake-up, report-sent), with the
payload shapes the spec gives in section 6: key code plus modifiers for
press and release, raw bytes for a HID report, a string for text, a
structured stats snapshot. The variant names and arities agree with the
match in src/crates/shared/src/event/topic.rs. -/
inductive DomainEvent where
  | KeyPress (code : Nat) (mods : Nat)
  | KeyRelease (code : Nat) (mods : Nat)
  | HidReport (report : List Nat)
  | SendText (text : String)
  | SendFile (path : String)
  | TextSent
  | CurrentStats (stats : SessionStats)
  | ModeChange (mode : Mode)
  | Exit
  | Sleep
  | WakeUp
  | ReportSent
deriving DecidableEq, Repr

/-- The closed Topic enum, translated from
src/crates/shared/src/event/topic.rs. -/
inductive Topic where
  | System
  | TextInput
  | KeyInput
  | KeyOutput
  | Stats
  | Monitoring
  | Telemetry
deriving DecidableEq, Repr

/-- Translated from the implementation of From for Topic in
src/crates/shared/src/event/topic.rs (Topic::from). Lean reserves the
word from, hence the name ofEvent. -/
def Topic.ofEvent (value : DomainEvent) : Topic :=
  match value with
  | .KeyPress _ _ => .KeyInput
  | .KeyRelease _ _ => .KeyInput
  | .HidReport _ => .KeyOutput
  | .SendText _ => .TextInput
  | .SendFile _ => .TextInput
  | .TextSent => .Monitoring
  | .CurrentStats _ => .Stats
  | .ModeChange _ => .System
  | .Exit => .System
  | .Sleep => .System
  | .WakeUp => .System
  | .ReportSent => .Telemetry

/-- The Event record: source plus payload, as in the spec data model
(section 3) and as used by Event::new in daemon.rs and client.rs. The spec
states it has no identity beyond structural equality. -/
structure Event where
  source : String
  payload : DomainEvent
deriving DecidableEq, Repr

/-- Event::new as called in daemon.rs and client.rs: plain construction. -/
def Event.new (source : String) (payload : DomainEvent) : Event :=
  { source := source, payload := payload }

/-- JSON values, the target of the wire encoding. Numbers are naturals,
which covers every numeric field of the modelled events. -/
inductive Json where
  | null
  | str (s : String)
  | num (n : Nat)
  | arr (xs : List Json)
  | obj (fields : List (String × Json))

/-- Modelled from the spec: serde serialization of Mode variants as their
discriminant strings. -/
def Mode.toJson : Mode → Json
  | .PassThrough => .str "PassThrough"
  | .InApp => .str "InApp"

/-- Modelled from the spec: inverse of Mode.toJson. -/
def Mode.fromJson : Json → Option Mode
  | .str "PassThrough" => some .PassThrough
  | .str "InApp" => some .InApp
  | _ => none

/-- Modelled from the spec: the serde wire form of DomainEvent, a tagged
union with an explicit discriminant per variant and variant-specific
fields (spec section 6). Unit variants serialize as their discriminant
string; payload variants as a one-field object keyed by the discriminant. -/
def DomainEvent.toJson : DomainEvent → Json
  | .KeyPress code mods => .obj [("KeyPress", .arr [.num code, .num mods])]
  | .KeyRelease code mods => .obj [("KeyRelease", .arr [.num code, .num mods])]
  | .HidReport report => .obj [("HidReport", .arr (report.map Json.num))]
  | .SendText text => .obj [("SendText", .str text)]
  | .SendFile path => .obj [("SendFile", .str path)]
  | .TextSent => .str "TextSent"
  | .CurrentStats stats => .obj [("CurrentStats", .obj [("keys", .num stats.keys)])]
  | .ModeChange mode => .obj [("ModeChange", mode.toJson)]
  | .Exit => .str "Exit"
  | .Sleep => .str "Sleep"
  | .WakeUp => .str "WakeUp"
  | .ReportSent => .obj [("ReportSent", .arr [])]

/-- Helper for decoding a HidReport payload: every array element must be a
number. -/
def Json.asNatList : List Json → Option (List Nat)
  | [] => some []
  | .num n :: rest => (Json.asNatList rest).map (n :: ·)
  | _ => none

/-- Modelled from the spec: the decoding direction of the DomainEvent wire
format; both directions use the identical record format (spec section 6). -/
def DomainEvent.fromJson : Json → Option DomainEvent
  | .str "TextSent" => some .TextSent
  | .str "Exit" => some .Exit
  | .str "Sleep" => some .Sleep
  | .str "WakeUp" => some .WakeUp
  | .obj [("KeyPress", .arr [.num code, .num mods])] => some (.KeyPress code mods)
  | .obj [("KeyRelease", .arr [.num code, .num mods])] => some (.KeyRelease code mods)
  | .obj [("HidReport", .arr xs)] => (Json.asNatList xs).map DomainEvent.HidReport
  | .obj [("SendText", .str text)] => some (.SendText text)
  | .obj [("SendFile", .str path)] => some (.SendFile path)
  | .obj [("CurrentStats", .obj [("keys", .num n)])] => some (.CurrentStats ⟨n⟩)
  | .obj [("ModeChange", m)] => (Mode.fromJson m).map DomainEvent.ModeChange
  | .obj [("ReportSent", .arr [])] => some .ReportSent
  | _ => none

/-- Modelled from the spec: the wire form of an Event record, the two
fields source and payload (spec section 6). The client send path in
client.rs serializes exactly this value followed by a newline. -/
def Event.toJson (e : Event) : Json :=
  .obj [("source", .str e.source), ("payload", e.payload.toJson)]

/-- Modelled from the spec: the decoding direction of the Event record, as
used by the client read path in client.rs. -/
def Event.fromJson : Json → Option Event
  | .obj [("source", .str source), ("payload", p)] =>
      (DomainEvent.fromJson p).map (Event.mk source)
  | _ => none

/-- The value the client send path in client.rs writes for a payload:
an Event with source client, serialized to the wire form. -/
def CharonClient.encode (payload : DomainEvent) : Json :=
  Event.toJson (Event.new "client" payload)

/-- Every HidReport byte list decodes back from its element-wise encoding. -/
theorem asNatList_map_num (xs : List Nat) :
    Json.asNatList (xs.map Json.num) = some xs := by
  induction xs with
  | nil => rfl
  | cons x xs ih => simp [Json.asNatList, ih]

/-- C1: for every DomainEvent value, the topic classifier returns exactly
one Topic: it is total (the Lean translation is a total function covering
every variant), deterministic and pure (equal inputs give the same unique
result), and never panics (no partiality anywhere in the definition). -/
theorem topic_classifier_total_deterministic :
    ∀ e : DomainEvent, ∃! t : Topic, Topic.ofEvent e = t :=
  fun e => ⟨Topic.ofEvent e, rfl, fun _ h => h.symm⟩

/-- C3: encoding an Event with any source and any DomainEvent payload to
its wire form, as the client send path does, and decoding the result, as
the client read path does, yields a structurally equal Event. -/
theorem wire_round_trip :
    ∀ (source : String) (payload : DomainEvent),
      Event.fromJson (Event.toJson (Event.mk source payload)) =
        some (Event.mk source payload) := by
  intro source payload
  cases payload with
  | HidReport report =>
      have h1 : DomainEvent.fromJson (DomainEvent.toJson (DomainEvent.HidReport report)) =
          (Json.asNatList (report.map Json.num)).map DomainEvent.HidReport := rfl
      have h2 : Event.fromJson (Event.toJson (Event.mk source (DomainEvent.HidReport report))) =
          (DomainEvent.fromJson (DomainEvent.toJson (DomainEvent.HidReport report))).map
            (Event.mk source) := rfl
      rw [h2, h1, asNatList_map_num]
      rfl
  | ModeChange mode => cases mode <;> rfl
  | _ => rfl

/-- A subscriber entry owned by the broker, as in the spec data model
(section 3): name and topic set. The inbound sender it also holds is a
channel handle with no value-level content and is omitted. -/
structure Subscriber where
  name : String
  topics : List Topic
deriving DecidableEq, Repr

/-- Modelled from the spec (section 4.2): the EventBroker holds the
subscriber list and the receiving end of the single inbound channel,
recorded here by its capacity. -/
structure EventBroker where
  subscribers : List Subscriber
  inboundCapacity : Nat
deriving DecidableEq, Repr

/-- EventBroker::new as called by Daemon::new: a broker on the given
inbound channel with no subscribers. -/
def EventBroker.new (inboundCapacity : Nat) : EventBroker :=
  { subscribers := [], inboundCapacity := inboundCapacity }

/-- Modelled from the spec (section 4.2): add_subscriber registers a new
subscriber entry; duplicate names are allowed. -/
def EventBroker.add_subscriber (b : EventBroker) (name : String)
    (topics : List Topic) : EventBroker :=
  { b with subscribers := b.subscribers ++ [Subscriber.mk name topics] }

/-- Modelled from the spec (section 4.2): broadcast with force true
delivers the event to every subscriber regardless of topic set; with
force false only to subscribers whose topic set contains the topic of the
event. The returned list is the deliveries, in subscriber order; broker
state does not change. -/
def EventBroker.broadcast (b : EventBroker) (e : Event) (force : Bool) :
    List (String × Event) :=
  (b.subscribers.filter
      (fun s => force || s.topics.contains (Topic.ofEvent e.payload))).map
    (fun s => (s.name, e))

/-- Modelled from the spec (section 6): a CharonConfig provides, at
minimum, a list of device identifiers with per-device tunables; one Nat
stands for the tunables of a device. -/
structure CharonConfig where
  perKeyboard : List (String × Nat)
deriving DecidableEq, Repr

/-- Modelled from the spec: the default configuration before any loading,
with no devices. -/
def CharonConfig.default : CharonConfig := CharonConfig.mk []

/-- Modelled from the spec (sections 4.5 and 6): get_config_per_keyboard
yields one entry per configured input device, pairing the device
identifier with the configuration restricted to that device. -/
def CharonConfig.get_config_per_keyboard (c : CharonConfig) :
    List (String × CharonConfig) :=
  c.perKeyboard.map (fun p => (p.1, CharonConfig.mk [p]))

/-- The ActorState built in Daemon::register_actor: actor name, the
capacity of its fresh bounded inbound channel, the configuration, and the
processor list (processors are trait objects, recorded by name). The
shared mode handle and the cloned outbound sender are lock and channel
handles with no value-level content. -/
structure ActorState where
  name : String
  inboundCapacity : Nat
  config : CharonConfig
  processors : List String
deriving DecidableEq, Repr

/-- A retained JoinHandle, modelled by the join outcome its await produces
during shutdown: ok for a clean end, error for a join failure. -/
abbrev JoinResult := Except String Unit

deriving instance DecidableEq for Except

/-- The Daemon struct of daemon.rs: retained task handles, the broker, the
shared mode, the configuration. The sender half event_tx belongs to the
channel whose capacity the broker records. -/
structure Daemon where
  tasks : List JoinResult
  broker : EventBroker
  mode : Mode
  config : CharonConfig
deriving DecidableEq, Repr

/-- Daemon::new from daemon.rs: a bounded channel of capacity 128, a fresh
broker on its receiving end, no tasks, mode PassThrough behind the shared
lock, default configuration. -/
def Daemon.new : Daemon :=
  { tasks := []
    broker := EventBroker.new 128
    mode := Mode.PassThrough
    config := CharonConfig.default }

/-- Log records emitted by daemon operations (the tracing calls in
daemon.rs). -/
inductive DLog where
  | debug (msg : String)
  | error (msg : String)
deriving DecidableEq, Repr

/-- Daemon::register_actor from daemon.rs, generic over the actor type T:
the polymorphic T spawn function is the spawn argument, taking the built
ActorState and the actor-specific init data. A fresh bounded channel of
capacity 128 is created, the subscriber is added to the broker before the
spawn attempt, then spawn runs: on success the task handle is retained,
on failure the error is logged and nothing further happens. -/
def Daemon.registerActor {Init : Type} (d : Daemon) (name : String) (init : Init)
    (topics : List Topic) (config : CharonConfig) (processors : List String)
    (spawn : ActorState → Init → Except String JoinResult) : Daemon × List DLog :=
  let broker := d.broker.add_subscriber name topics
  let state : ActorState := ActorState.mk name 128 config processors
  match spawn state init with
  | .ok task =>
      ({ d with broker := broker, tasks := d.tasks ++ [task] }, [])
  | .error err =>
      ({ d with broker := broker },
        [DLog.error ("Could not spawn actor " ++ name ++ " due to error: " ++ err)])

/-- Daemon::stop from daemon.rs: builds the Exit event with source broker
and issues exactly one forced broadcast of it. The second component is the
deliveries of that single broadcast; the daemon value is unchanged. -/
def Daemon.stop (d : Daemon) : Daemon × List (String × Event) :=
  let event := Event.new "broker" DomainEvent.Exit
  (d, d.broker.broadcast event true)

/-- The loop of Daemon::shutdown: awaits the drained handles in order,
logging each join error and continuing with the rest. Returns the awaited
outcomes in order together with the logs. -/
def joinAll : List JoinResult → List JoinResult × List DLog
  | [] => ([], [])
  | t :: rest =>
      let r := joinAll rest
      match t with
      | .ok _ => (t :: r.1, r.2)
      | .error err =>
          (t :: r.1, DLog.error ("Error while shutting down an actor: " ++ err) :: r.2)

/-- Daemon::shutdown from daemon.rs: drains the task list and awaits every
handle. The middle component is the trace of awaited handles. -/
def Daemon.shutdown (d : Daemon) : Daemon × List JoinResult × List DLog :=
  let r := joinAll d.tasks
  ({ d with tasks := [] }, r.1, r.2)

/-- The for loop of Daemon::add_scanners from daemon.rs: one
register_actor call per entry of get_config_per_keyboard, with the name
KeyScanner- followed by the device name, the device name as init data, and
the configuration of that device. -/
def scanLoop (topics : List Topic)
    (spawn : ActorState → String → Except String JoinResult) :
    Daemon × List DLog → List (String × CharonConfig) → Daemon × List DLog
  | acc, [] => acc
  | acc, p :: rest =>
      let r := Daemon.registerActor acc.1 ("KeyScanner-" ++ p.1) p.1 topics p.2 [] spawn
      scanLoop topics spawn
        (r.1, acc.2 ++ (DLog.debug ("Registering scanner: " ++ p.1) :: r.2)) rest

/-- Daemon::add_scanners from daemon.rs. -/
def Daemon.add_scanners (d : Daemon) (topics : List Topic)
    (spawn : ActorState → String → Except String JoinResult) : Daemon × List DLog :=
  scanLoop topics spawn (d, []) d.config.get_config_per_keyboard

/-- C10: a freshly constructed Daemon starts with the shared Mode equal to
PassThrough, an empty task-handle list, the default configuration, and a
broker connected to a bounded inbound channel of capacity 128, with no
subscribers yet. -/
theorem daemon_new_initial_state :
    Daemon.new.mode = Mode.PassThrough ∧
    Daemon.new.tasks = [] ∧
    Daemon.new.config = CharonConfig.default ∧
    Daemon.new.broker = EventBroker.new 128 ∧
    Daemon.new.broker.inboundCapacity = 128 :=
  ⟨rfl, rfl, rfl, rfl, rfl⟩

/-- C6: Daemon::stop performs exactly one forced broadcast of an Event
with source broker and payload Exit: every subscriber receives it
regardless of its topic set, and no daemon state changes. -/
theorem daemon_stop_is_single_forced_exit_broadcast (d : Daemon) :
    (d.stop).1 = d ∧
    (d.stop).2 = d.broker.subscribers.map
      (fun s => (s.name, Event.new "broker" DomainEvent.Exit)) := by
  refine ⟨rfl, ?_⟩
  show d.broker.broadcast (Event.new "broker" DomainEvent.Exit) true = _
  simp [EventBroker.broadcast]

/-- The shutdown loop awaits every handle in order and logs exactly the
join errors, continuing past each one. -/
theorem joinAll_spec (ts : List JoinResult) :
    joinAll ts =
      (ts, ts.filterMap
        (fun t => match t with
          | .ok _ => none
          | .error err =>
              some (DLog.error ("Error while shutting down an actor: " ++ err)))) := by
  induction ts with
  | nil => rfl
  | cons t rest ih =>
      cases t <;> simp [joinAll, ih, List.filterMap_cons]

/-- C5: Daemon::shutdown awaits every retained task handle in order; a
handle whose task ended in error is logged and the remaining handles are
still awaited; after shutdown returns, the daemon retains no task
handles. -/
theorem daemon_shutdown_awaits_every_handle (d : Daemon) :
    (d.shutdown).2.1 = d.tasks ∧
    (d.shutdown).1.tasks = [] ∧
    (d.shutdown).2.2 = d.tasks.filterMap
      (fun t => match t with
        | .ok _ => none
        | .error err =>
            some (DLog.error ("Error while shutting down an actor: " ++ err))) := by
  unfold Daemon.shutdown
  rw [joinAll_spec]
  exact ⟨rfl, rfl, rfl⟩

/-- A spawn function that always fails, standing for an actor whose
required device is missing. -/
def ghostSpawn : ActorState → Unit → Except String JoinResult :=
  fun _ _ => Except.error "missing device"

/-- C2 counterexample: registering an actor whose spawn fails does leave a
trace in broker state. On a fresh daemon, registering the actor Ghost with
an always-failing spawn retains no task handle, yet the broker keeps the
subscriber entry that was added before the spawn attempt, so the
subscriber list is not empty: the claim that no trace of the failed actor
remains in daemon or broker state is false. -/
theorem register_actor_failure_leaves_broker_trace :
    (Daemon.new.registerActor "Ghost" () [Topic.System] CharonConfig.default []
        ghostSpawn).1.tasks = [] ∧
    (Daemon.new.registerActor "Ghost" () [Topic.System] CharonConfig.default []
        ghostSpawn).1.broker.subscribers = [Subscriber.mk "Ghost" [Topic.System]] ∧
    (Daemon.new.registerActor "Ghost" () [Topic.System] CharonConfig.default []
        ghostSpawn).1.broker.subscribers ≠ [] :=
  ⟨rfl, rfl, by decide⟩

/-- C2 amended: when the spawn of an actor fails during register_actor,
the error is logged and registration of other actors continues unaffected:
no task handle is retained for the failed actor, the task list, mode and
configuration are unchanged, and the only remaining trace of the failed
actor is the subscriber entry the broker gained before the spawn
attempt. -/
theorem register_actor_spawn_failure_isolated {Init : Type} (d : Daemon)
    (name : String) (init : Init) (topics : List Topic) (config : CharonConfig)
    (processors : List String)
    (spawn : ActorState → Init → Except String JoinResult) (err : String)
    (hfail : spawn (ActorState.mk name 128 config processors) init =
      Except.error err) :
    d.registerActor name init topics config processors spawn =
      ({ d with broker := d.broker.add_subscriber name topics },
        [DLog.error ("Could not spawn actor " ++ name ++ " due to error: " ++ err)]) := by
  unfold Daemon.registerActor
  simp [hfail]

/-- Concrete instantiation of the amended C2 theorem: the failing Ghost
registration on a fresh daemon. -/
theorem register_actor_spawn_failure_isolated_witness :
    ghostSpawn (ActorState.mk "Ghost" 128 CharonConfig.default []) () =
      Except.error "missing device" ∧
    Daemon.new.registerActor "Ghost" () [Topic.System] CharonConfig.default []
        ghostSpawn =
      ({ Daemon.new with
          broker := Daemon.new.broker.add_subscriber "Ghost" [Topic.System] },
        [DLog.error ("Could not spawn actor " ++ "Ghost" ++ " due to error: " ++
          "missing device")]) :=
  ⟨rfl, register_actor_spawn_failure_isolated Daemon.new "Ghost" () [Topic.System]
    CharonConfig.default [] ghostSpawn "missing device" rfl⟩

/-- The scanner registration loop, characterized: the broker gains one
subscriber per device entry, the task list gains the successfully spawned
handles in order, and mode and configuration are untouched. -/
theorem scanLoop_state (topics : List Topic)
    (spawn : ActorState → String → Except String JoinResult)
    (entries : List (String × CharonConfig)) :
    ∀ (d : Daemon) (logs : List DLog),
      (scanLoop topics spawn (d, logs) entries).1 =
        { d with
            broker := EventBroker.mk
              (d.broker.subscribers ++ entries.map
                (fun p => Subscriber.mk ("KeyScanner-" ++ p.1) topics))
              d.broker.inboundCapacity
            tasks := d.tasks ++ entries.filterMap
              (fun p =>
                (spawn (ActorState.mk ("KeyScanner-" ++ p.1) 128 p.2 []) p.1).toOption) } := by
  induction entries with
  | nil => intro d logs; simp [scanLoop]
  | cons p rest ih =>
      intro d logs
      cases hs : spawn (ActorState.mk ("KeyScanner-" ++ p.1) 128 p.2 []) p.1 with
      | ok task =>
          simp [scanLoop, Daemon.registerActor, hs, ih,
            EventBroker.add_subscriber, Except.toOption, List.filterMap_cons]
      | error err =>
          simp [scanLoop, Daemon.registerActor, hs, ih,
            EventBroker.add_subscriber, Except.toOption, List.filterMap_cons]

/-- C7: add_scanners registers exactly one KeyScanner actor per entry of
the per-keyboard configuration: the broker gains one subscriber per
configured device, named KeyScanner- followed by the device name, these
names are pairwise distinct whenever the device names are, and the spawn
of each scanner receives an ActorState carrying the derived name and that
device's configuration together with the device identifier as its
actor-specific init data; the retained tasks grow by exactly the
successfully spawned scanners. -/
theorem add_scanners_one_per_device (d : Daemon) (topics : List Topic)
    (spawn : ActorState → String → Except String JoinResult)
    (hnodup : (d.config.get_config_per_keyboard.map Prod.fst).Nodup) :
    (d.add_scanners topics spawn).1.broker.subscribers =
      d.broker.subscribers ++ d.config.get_config_per_keyboard.map
        (fun p => Subscriber.mk ("KeyScanner-" ++ p.1) topics) ∧
    (d.add_scanners topics spawn).1.tasks =
      d.tasks ++ d.config.get_config_per_keyboard.filterMap
        (fun p =>
          (spawn (ActorState.mk ("KeyScanner-" ++ p.1) 128 p.2 []) p.1).toOption) ∧
    (d.config.get_config_per_keyboard.map
      (fun p => "KeyScanner-" ++ p.1)).Nodup := by
  have hinj : Function.Injective (fun s : String => "KeyScanner-" ++ s) := by
    intro a b h
    have hd := congrArg String.data h
    simp only [String.data_append] at hd
    exact String.ext (List.append_cancel_left hd)
  refine ⟨?_, ?_, ?_⟩
  · unfold Daemon.add_scanners
    rw [scanLoop_state]
  · unfold Daemon.add_scanners
    rw [scanLoop_state]
  · have : (d.config.get_config_per_keyboard.map
        (fun p => "KeyScanner-" ++ p.1)) =
        (d.config.get_config_per_keyboard.map Prod.fst).map
          (fun s => "KeyScanner-" ++ s) := by
      simp [List.map_map, Function.comp]
    rw [this]
    exact hnodup.map hinj

/-- A two-device demo configuration for the scanner registration. -/
def scannersDemoDaemon : Daemon :=
  { Daemon.new with config := CharonConfig.mk [("kbd0", 1), ("kbd1", 2)] }

/-- A demo spawn function under which the second device is missing. -/
def scannersDemoSpawn : ActorState → String → Except String JoinResult :=
  fun _ init => if init = "kbd1" then Except.error "missing device" else Except.ok (Except.ok ())

/-- Concrete instantiation of the C7 theorem on the two-device demo
configuration. -/
theorem add_scanners_one_per_device_witness :
    (scannersDemoDaemon.config.get_config_per_keyboard.map Prod.fst).Nodup ∧
    (scannersDemoDaemon.add_scanners [Topic.KeyInput] scannersDemoSpawn).1.tasks =
      scannersDemoDaemon.tasks ++
        scannersDemoDaemon.config.get_config_per_keyboard.filterMap
          (fun p =>
            (scannersDemoSpawn (ActorState.mk ("KeyScanner-" ++ p.1) 128 p.2 [])
              p.1).toOption) :=
  ⟨by decide,
    (add_scanners_one_per_device scannersDemoDaemon [Topic.KeyInput]
      scannersDemoSpawn (by decide)).2.1⟩

/-- Messages driving the client app layer, as used in client.rs and
app_manager.rs: backend events, timer ticks, and the activation pair
exchanged during app switching. -/
inductive AppMsg where
  | Backend (e : DomainEvent)
  | TimerTick (ms : Nat)
  | Activate
  | Deactivate
deriving DecidableEq, Repr

/-- Commands returned by the app layer, as handled by
CharonClient::handle_command in client.rs. -/
inductive Command where
  | Render
  | SendEvent (e : DomainEvent)
  | SuspendTUI
  | ResumeTUI
  | RunApp (app : String)
  | Exit
deriving DecidableEq, Repr

/-- A UiApp trait object of the app map: its private state, modelled as a
Nat, and its update transition returning the next state and an optional
command. Its render method only draws to the terminal and has no
value-level content. -/
structure UiApp where
  state : Nat
  onUpdate : Nat → AppMsg → Nat × Option Command

/-- The AppManager struct of app_manager.rs: the app map (an association
list keyed by app name), the active app id, and the awake flag. -/
structure AppManager where
  apps : List (String × UiApp)
  active_id : String
  is_awake : Bool

/-- AppManager::new from app_manager.rs: starts awake. -/
def AppManager.new (apps : List (String × UiApp)) (active_id : String) :
    AppManager :=
  { apps := apps, active_id := active_id, is_awake := true }

/-- AppManager::mode_screen from app_manager.rs. -/
def AppManager.mode_screen : Mode → String
  | .PassThrough => "charonsay"
  | .InApp => "menu"

/-- AppManager::has_app from app_manager.rs. -/
def AppManager.has_app (m : AppManager) (app : String) : Bool :=
  m.apps.any (fun p => p.1 == app)

/-- AppManager::set_active from app_manager.rs: activates a present app,
logs an error otherwise. -/
def AppManager.set_active (m : AppManager) (app : String) : AppManager :=
  if m.has_app app then { m with active_id := app } else m

/-- Dispatch of a message to the active app in the app map: the entry is
replaced by the updated app, as the get_mut call in app_manager.rs mutates
it in place; a missing active app yields no command. -/
def updateActiveApp (apps : List (String × UiApp)) (id : String) (msg : AppMsg) :
    List (String × UiApp) × Option Command :=
  match apps.find? (fun p => p.1 == id) with
  | none => (apps, none)
  | some entry =>
      let r := entry.2.onUpdate entry.2.state msg
      (apps.map (fun p => if p.1 == id then (p.1, UiApp.mk r.1 p.2.onUpdate) else p),
        r.2)

/-- AppManager::update from app_manager.rs: a mode change switches the
active screen and requests a render, Sleep and WakeUp toggle the awake
flag, and any other message is dropped while asleep and otherwise
dispatched to the active app. -/
def AppManager.update (m : AppManager) (msg : AppMsg) :
    AppManager × Option Command :=
  match msg with
  | .Backend (.ModeChange mode) =>
      ({ m with active_id := AppManager.mode_screen mode }, some .Render)
  | .Backend .Sleep => ({ m with is_awake := false }, none)
  | .Backend .WakeUp => ({ m with is_awake := true }, none)
  | other =>
      if !m.is_awake then (m, none)
      else
        let r := updateActiveApp m.apps m.active_id other
        ({ m with apps := r.1 }, r.2)

/-- Observable side effects of the client, in order of occurrence: the
tracing calls, the terminal operations, and the socket writes of
client.rs. -/
inductive CEffect where
  | logInfo (msg : String)
  | logWarn (msg : String)
  | logError (msg : String)
  | redraw
  | writeLine (record : Json)
  | suspendTui
  | resumeTui
  | clearTerminal
  | restoreTerminal

/-- The CharonClient struct of client.rs: the app manager, the scratch
line buffer, and the quit flag. The terminal, reader and writer are
handles whose operations appear as effects. -/
structure ClientState where
  app_mngr : AppManager
  line : String
  should_quit : Bool

/-- One completion of the select race in CharonClient::run: the socket
read returned zero bytes (peer closed), the socket read returned a line
(carried as the JSON value the line parses to at the external serde_json
layer), or the interval timer ticked. -/
inductive ClientInput where
  | socketClosed
  | socketLine (record : Json)
  | tick

/-- CharonClient::update_with_msg and handle_command from client.rs,
combined into one fuel-indexed function: inl runs update_with_msg on a
message, inr runs handle_command on a command. The async recursion of the
source (RunApp triggering Deactivate and Activate updates) is bounded by
the fuel; the spec requires the recursion depth to be finitely bounded by
design. -/
def clientUpdate : Nat → ClientState → AppMsg ⊕ Command → ClientState × List CEffect
  | fuel, s, .inl msg =>
      let r := s.app_mngr.update msg
      let s1 := { s with app_mngr := r.1 }
      match r.2 with
      | none => (s1, [])
      | some cmd =>
          match fuel with
          | 0 => (s1, [])
          | f + 1 => clientUpdate f s1 (.inr cmd)
  | _, s, .inr .Render => (s, [.redraw])
  | _, s, .inr (.SendEvent e) => (s, [.writeLine (CharonClient.encode e)])
  | _, s, .inr .SuspendTUI => (s, [.suspendTui])
  | _, s, .inr .ResumeTUI => (s, [.resumeTui, .clearTerminal, .redraw])
  | fuel, s, .inr (.RunApp app) =>
      if s.app_mngr.has_app app then
        match fuel with
        | 0 => (s, [])
        | f + 1 =>
            let r1 := clientUpdate f s (.inl .Deactivate)
            let s2 := { r1.1 with app_mngr := r1.1.app_mngr.set_active app }
            let r2 := clientUpdate f s2 (.inl .Activate)
            (r2.1, r1.2 ++ r2.2 ++ [.redraw])
      else (s, [.logError ("Could not find app: " ++ app)])
  | _, s, .inr .Exit => ({ s with should_quit := true }, [])

/-- One iteration of the event loop in CharonClient::run: a zero-byte read
warns and sets the quit flag; a read line is parsed and, on success,
handed to update_with_msg as a Backend message, while a parse failure is
logged and the record dropped; in both read branches the scratch line
buffer ends cleared; a timer tick updates with TimerTick of the fixed
500ms interval. -/
def clientStep (fuel : Nat) (s : ClientState) (i : ClientInput) :
    ClientState × List CEffect :=
  match i with
  | .socketClosed =>
      ({ s with should_quit := true, line := "" },
        [.logWarn "Connection closed by daemon"])
  | .socketLine record =>
      match Event.fromJson record with
      | some event =>
          let r := clientUpdate fuel s (.inl (.Backend event.payload))
          ({ r.1 with line := "" }, r.2)
      | none =>
          ({ s with line := "" }, [.logError "Failed to parse event"])
  | .tick => clientUpdate fuel s (.inl (.TimerTick 500))

/-- The while loop of CharonClient::run over a finite trace of select
completions: it stops as soon as the quit flag is set, otherwise it
handles the next completion. -/
def runLoop (fuel : Nat) : ClientState → List ClientInput → ClientState × List CEffect
  | s, [] => (s, [])
  | s, i :: rest =>
      if s.should_quit then (s, [])
      else
        let r := clientStep fuel s i
        let r2 := runLoop fuel r.1 rest
        (r2.1, r.2 ++ r2.2)

/-- CharonClient::run from client.rs over a finite trace of select
completions: the startup log and initial redraw, the event loop, then the
terminal restore and the final log. The Bool records that run returned
Ok. -/
def CharonClient.run (fuel : Nat) (s : ClientState) (inputs : List ClientInput) :
    ClientState × List CEffect × Bool :=
  let r := runLoop fuel s inputs
  (r.1,
    CEffect.logInfo "Client started" :: CEffect.redraw :: r.2 ++
      [CEffect.restoreTerminal, CEffect.logInfo "Client quitting"],
    true)

/-- C9: while the AppManager is asleep, update returns none and leaves the
whole AppManager state unchanged for every message other than ModeChange,
Sleep and WakeUp; a ModeChange is still processed while asleep, switching
the active screen to the screen of the new mode and returning the Render
command; and WakeUp restores the awake state. -/
theorem app_manager_asleep_gating (m : AppManager) (msg : AppMsg)
    (hasleep : m.is_awake = false)
    (hmode : ∀ mo, msg ≠ AppMsg.Backend (DomainEvent.ModeChange mo))
    (hsleep : msg ≠ AppMsg.Backend DomainEvent.Sleep)
    (hwake : msg ≠ AppMsg.Backend DomainEvent.WakeUp) :
    m.update msg = (m, none) ∧
    (∀ mo, m.update (AppMsg.Backend (DomainEvent.ModeChange mo)) =
      ({ m with active_id := AppManager.mode_screen mo }, some Command.Render)) ∧
    (m.update (AppMsg.Backend DomainEvent.WakeUp)).1.is_awake = true := by
  refine ⟨?_, fun mo => rfl, rfl⟩
  cases msg with
  | Backend e =>
      cases e <;>
        first
          | exact absurd rfl (hmode _)
          | exact absurd rfl hsleep
          | exact absurd rfl hwake
          | simp [AppManager.update, hasleep]
  | TimerTick ms => simp [AppManager.update, hasleep]
  | Activate => simp [AppManager.update, hasleep]
  | Deactivate => simp [AppManager.update, hasleep]

/-- A demo app for concrete instantiations: counts its updates and asks
for a render each time. -/
def demoApp : UiApp :=
  UiApp.mk 0 (fun st _ => (st + 1, some Command.Render))

/-- An asleep demo AppManager. -/
def sleepyManager : AppManager :=
  { apps := [("menu", demoApp)], active_id := "menu", is_awake := false }

/-- Concrete instantiation of the C9 theorem: a timer tick reaching the
asleep manager changes nothing and yields no command. -/
theorem app_manager_asleep_gating_witness :
    sleepyManager.is_awake = false ∧
    sleepyManager.update (AppMsg.TimerTick 500) = (sleepyManager, none) :=
  ⟨rfl,
    (app_manager_asleep_gating sleepyManager (AppMsg.TimerTick 500) rfl
      (by simp) (by simp) (by simp)).1⟩

/-- C4: a socket line that fails to parse as an Event is logged and
discarded: the step leaves every client field unchanged (the scratch line
buffer ends cleared, as it began), the quit flag stays false, and the run
loop continues with the subsequent completions exactly as it would have
without the malformed line, prefixing only the parse-failure log. -/
theorem client_malformed_record_discarded (fuel : Nat) (s : ClientState)
    (record : Json) (rest : List ClientInput)
    (hq : s.should_quit = false) (hline : s.line = "")
    (hbad : Event.fromJson record = none) :
    clientStep fuel s (ClientInput.socketLine record) =
      (s, [CEffect.logError "Failed to parse event"]) ∧
    runLoop fuel s (ClientInput.socketLine record :: rest) =
      ((runLoop fuel s rest).1,
        CEffect.logError "Failed to parse event" :: (runLoop fuel s rest).2) := by
  have hstate : ClientState.mk s.app_mngr "" false = s := by
    cases s
    simp_all
  constructor
  · simp [clientStep, hbad, hq, hstate]
  · simp [runLoop, hq, clientStep, hbad, hstate]

/-- An awake demo client state with an empty scratch buffer. -/
def demoClient : ClientState :=
  { app_mngr := AppManager.new [("charonsay", demoApp)] "charonsay"
    line := ""
    should_quit := false }

/-- Concrete instantiation of the C4 theorem: a null record does not parse
and is dropped with only the error log. -/
theorem client_malformed_record_discarded_witness :
    demoClient.should_quit = false ∧
    demoClient.line = "" ∧
    Event.fromJson Json.null = none ∧
    clientStep 8 demoClient (ClientInput.socketLine Json.null) =
      (demoClient, [CEffect.logError "Failed to parse event"]) :=
  ⟨rfl, rfl, rfl,
    (client_malformed_record_discarded 8 demoClient Json.null [] rfl rfl rfl).1⟩

/-- Once the quit flag is set the event loop handles nothing further. -/
theorem runLoop_quits (fuel : Nat) (s : ClientState) (inputs : List ClientInput)
    (h : s.should_quit = true) : runLoop fuel s inputs = (s, []) := by
  cases inputs with
  | nil => rfl
  | cons i rest => simp [runLoop, h]

/-- C8: a zero-byte socket read (peer closed) terminates the client in an
orderly way: the quit flag is set, the warning is logged, no further
inbound records or timer ticks are processed, the app manager is left
untouched, the terminal is restored, and run returns Ok. -/
theorem client_peer_closed_orderly_shutdown (fuel : Nat) (s : ClientState)
    (rest : List ClientInput) (hq : s.should_quit = false) :
    CharonClient.run fuel s (ClientInput.socketClosed :: rest) =
      ({ s with should_quit := true, line := "" },
        [CEffect.logInfo "Client started", CEffect.redraw,
          CEffect.logWarn "Connection closed by daemon",
          CEffect.restoreTerminal, CEffect.logInfo "Client quitting"],
        true) := by
  unfold CharonClient.run
  simp [runLoop, hq, clientStep, runLoop_quits]

/-- Concrete instantiation of the C8 theorem: the peer closing ends the
demo client without the trailing tick being handled. -/
theorem client_peer_closed_orderly_shutdown_witness :
    demoClient.should_quit = false ∧
    CharonClient.run 8 demoClient [ClientInput.socketClosed, ClientInput.tick] =
      ({ demoClient with should_quit := true, line := "" },
        [CEffect.logInfo "Client started", CEffect.redraw,
          CEffect.logWarn "Connection closed by daemon",
          CEffect.restoreTerminal, CEffect.logInfo "Client quitting"],
        true) :=
  ⟨rfl,
    client_peer_closed_orderly_shutdown 8 demoClient [ClientInput.tick] rfl⟩
